import Mathlib

/-!
Shallow embedding of the Wayland frontend of the perceptia compositor
(directory `src/wayland_frontend/src`), together with theorems checking the
natural-language specification against the code.

The embedding follows the C sources function by function:
`wayland-region.c`, `wayland-cache.c`, `wayland-surface.c`, `utils-store.c`,
`utils-list.c`, `wayland-facade.c`, `wayland-gateway.c` and
`wayland-protocol-keyboard.c`.  Machine integers are modelled as `Int` with
explicit wrapping modulo `2^32` where the C arithmetic is performed on
`uint32_t`/`int` values.  Pointers that may be null are modelled as `Option`,
and protocol side effects (events sent to client resources, calls into the
Coordinator) are collected in explicit lists.
-/

/-- Wrapping of an integer into the range of `uint32_t`: the value modulo
`2^32` (C conversions to an unsigned type). -/
def u32 (z : Int) : Int := z % 4294967296

/-- Conversion of a `uint32_t` value to `int` (two's-complement wrap, the
behaviour of the compilers this code targets). -/
def i32 (z : Int) : Int :=
  let r := z % 4294967296
  if r < 2147483648 then r else r - 4294967296

/-- Position type from `global-types.h` (`NoiaPosition`, two `uint32_t`
coordinates; values kept in `[0, 2^32)` by the operations below). -/
structure NoiaPosition where
  x : Int
  y : Int
deriving DecidableEq, Repr

/-- Size type from `global-types.h` (`NoiaSize`, two `uint32_t` extents). -/
structure NoiaSize where
  width : Int
  height : Int
deriving DecidableEq, Repr

/-- Region record from `wayland-region.h`: a single axis-aligned rectangle. -/
structure NoiaWaylandRegion where
  pos : NoiaPosition
  size : NoiaSize
deriving DecidableEq, Repr

/-- Region constructor from `wayland-region.c` (`noia_wayland_region_new`):
`calloc` produces a zero-initialised record. -/
def noia_wayland_region_new : NoiaWaylandRegion :=
  { pos := { x := 0, y := 0 }, size := { width := 0, height := 0 } }

/-- Validity check from `wayland-region.c` (`noia_wayland_region_is_valid`)
on a non-null region: both position components and both extents must be
strictly positive. -/
def noia_wayland_region_is_valid (self : NoiaWaylandRegion) : Bool :=
  decide (0 < self.pos.x) && decide (0 < self.pos.y)
    && decide (0 < self.size.width) && decide (0 < self.size.height)

/-- Inflation from `wayland-region.c` (`noia_wayland_region_inflate`) on a
non-null region.  Each `int diff = ...` line computes in `uint32_t`
arithmetic and then converts to `int`; the compound assignments convert
`diff` back to `uint32_t`.  Note that the second branch of the source adds
`diff` to `size.width` (not `size.height`) while updating `pos.y`. -/
def noia_wayland_region_inflate (self : NoiaWaylandRegion)
    (x y width height : Int) : NoiaWaylandRegion :=
  if noia_wayland_region_is_valid self then
    let old := self
    let s1 :=
      let diff := i32 (u32 (old.pos.x - x))
      if 0 < diff then
        { self with size := { self.size with width := u32 (self.size.width + diff) },
                    pos := { self.pos with x := u32 x } }
      else self
    let s2 :=
      let diff := i32 (u32 (old.pos.y - y))
      if 0 < diff then
        { s1 with size := { s1.size with width := u32 (s1.size.width + diff) },
                  pos := { s1.pos with y := u32 y } }
      else s1
    let s3 :=
      let diff := i32 (u32 (old.pos.x + old.size.width - x - width))
      if diff < 0 then
        { s2 with size := { s2.size with width := u32 (s2.size.width - diff) } }
      else s2
    let s4 :=
      let diff := i32 (u32 (old.pos.y + old.size.height - y - height))
      if diff < 0 then
        { s3 with size := { s3.size with height := u32 (s3.size.height - diff) } }
      else s3
    s4
  else
    { pos := { x := u32 x, y := u32 y },
      size := { width := u32 width, height := u32 height } }

/-- Axis-aligned bounding box of two rectangles, written from the spec's
words (for comparison against `noia_wayland_region_inflate`): smallest
rectangle containing both. -/
def specBoundingBox (r1 r2 : NoiaWaylandRegion) : NoiaWaylandRegion :=
  let x := min r1.pos.x r2.pos.x
  let y := min r1.pos.y r2.pos.y
  let xe := max (r1.pos.x + r1.size.width) (r2.pos.x + r2.size.width)
  let ye := max (r1.pos.y + r1.size.height) (r2.pos.y + r2.size.height)
  { pos := { x := x, y := y }, size := { width := xe - x, height := ye - y } }

/-- C2: inflating a fresh region with R1 = (5,5,1,1) and then R2 = (1,1,1,1)
(both in the positive quadrant) yields position (1,1) and size (9,1): the
left/top extension of the y-branch is added to the width, so the result is
not the bounding box (1,1,5,5) of R1 and R2. -/
theorem C2_inflate_not_bounding_box :
    noia_wayland_region_inflate
        (noia_wayland_region_inflate noia_wayland_region_new 5 5 1 1) 1 1 1 1
      = { pos := { x := 1, y := 1 }, size := { width := 9, height := 1 } }
  ∧ specBoundingBox { pos := { x := 5, y := 5 }, size := { width := 1, height := 1 } }
        { pos := { x := 1, y := 1 }, size := { width := 1, height := 1 } }
      = { pos := { x := 1, y := 1 }, size := { width := 5, height := 5 } }
  ∧ noia_wayland_region_inflate
        (noia_wayland_region_inflate noia_wayland_region_new 5 5 1 1) 1 1 1 1
      ≠ specBoundingBox { pos := { x := 5, y := 5 }, size := { width := 1, height := 1 } }
          { pos := { x := 1, y := 1 }, size := { width := 1, height := 1 } } := by
  refine ⟨by decide, by decide, by decide⟩

/-- Identifier type from `global-types.h` (`NoiaItemId`, a `uintptr_t`
handle). -/
abbrev NoiaItemId := Nat

/-- Surface identifier from `global-types.h` (`NoiaSurfaceId`). -/
abbrev NoiaSurfaceId := Nat

/-- Reserved invalid item identifier from `global-constants.h`. -/
def scInvalidItemId : NoiaItemId := 0

/-- Reserved invalid surface identifier from `global-constants.h`. -/
def scInvalidSurfaceId : NoiaSurfaceId := 0

/-- Protocol resource handle (`struct wl_resource*`).  A live resource always
belongs to a client; `wl_resource_get_client` is the `client` projection. -/
structure WlResource where
  client : Nat
  id : Nat
deriving DecidableEq, Repr

/-- Surface resource kinds from `wayland-types.h`
(`NoiaWaylandSurfaceResourceType`). -/
inductive SurfaceResourceType
  | surface
  | buffer
  | frame
  | shell_surface
  | xdg_shell_surface
deriving DecidableEq, Repr

/-- Surface record from `wayland-surface.c` (`NoiaWaylandSurfaceStruct`):
a fixed-slot table of resources plus the ordered frame-resource queue. -/
structure NoiaWaylandSurface where
  resources : SurfaceResourceType → Option WlResource
  frame_resources : List WlResource

/-- Update of one slot of the fixed-slot resource table. -/
def setResource (f : SurfaceResourceType → Option WlResource)
    (t : SurfaceResourceType) (v : Option WlResource) :
    SurfaceResourceType → Option WlResource :=
  fun t2 => if t2 = t then v else f t2

/-- Surface constructor from `wayland-surface.c` (`noia_wayland_surface_new`):
`calloc` zeroes all slots and the frame queue starts empty. -/
def noia_wayland_surface_new : NoiaWaylandSurface :=
  { resources := fun _ => none, frame_resources := [] }

/-- Resource addition from `wayland-surface.c`
(`noia_wayland_surface_add_resource`): a frame resource is appended to the
queue; for any other kind an occupied slot is logged and overwritten; in all
cases the slot is set to the new resource. -/
def noia_wayland_surface_add_resource (self : NoiaWaylandSurface)
    (t : SurfaceResourceType) (rc : WlResource) : NoiaWaylandSurface :=
  let s1 :=
    if t = SurfaceResourceType.frame then
      { self with frame_resources := self.frame_resources ++ [rc] }
    else self
  { s1 with resources := setResource s1.resources t (some rc) }

/-- Removal of the first occurrence of `rc` in a list, the behaviour of
`noia_list_remove` from `utils-list.c` with the pointer-inequality compare
function. -/
def listRemoveFirst (l : List WlResource) (rc : WlResource) : List WlResource :=
  match l with
  | [] => []
  | x :: xs => if x = rc then xs else x :: listRemoveFirst xs rc

/-- Resource removal from `wayland-surface.c`
(`noia_wayland_surface_remove_resource`): the slot is cleared; for the frame
kind the resource is removed from the queue and the new queue head (or null)
is promoted into the slot (`noia_list_first`). -/
def noia_wayland_surface_remove_resource (self : NoiaWaylandSurface)
    (t : SurfaceResourceType) (rc : WlResource) : NoiaWaylandSurface :=
  let s1 := { self with resources := setResource self.resources t none }
  if t = SurfaceResourceType.frame then
    let l := listRemoveFirst s1.frame_resources rc
    { s1 with frame_resources := l,
              resources := setResource s1.resources t l.head? }
  else s1

/-- Lookup in an id-keyed store (`noia_store_find_with_id` from
`utils-store.c`): the item stored under the key, or null. -/
def noia_store_find {α : Type} (store : List (NoiaItemId × α))
    (key : NoiaItemId) : Option α :=
  (store.find? (fun p => p.1 == key)).map (fun p => p.2)

/-- Fresh-id generation from `utils-store.c` (`noia_store_generate_new_id`):
draw `rand()` values (masked with `NOIA_RANDOM_MASK`, which is `~0x0` in
release builds, hence the identity) until one is neither the invalid id nor
already present in the store.  The list argument is the stream of `rand()`
outputs; an exhausted stream models the do-while loop never terminating. -/
def noia_store_generate_new_id {α : Type} (store : List (NoiaItemId × α))
    (draws : List Nat) : Option NoiaItemId :=
  draws.find? (fun d => (d != scInvalidItemId) && (noia_store_find store d).isNone)

/-- Cache from `wayland-cache.c` (`NoiaWaylandCacheStruct`): the surface
store, the region store and the per-kind general resource lists (keyboard,
pointer, data-device; the `other` list takes no part in any claim's code
path and is omitted). -/
structure NoiaWaylandCache where
  surfaces : List (NoiaSurfaceId × NoiaWaylandSurface)
  regions : List (NoiaItemId × NoiaWaylandRegion)
  keyboard_resources : List WlResource
  pointer_resources : List WlResource
  data_device_resources : List WlResource

/-- Surface lookup from `wayland-cache.c` (`noia_wayland_cache_find_surface`):
null for the invalid id or an absent id (the failure is logged). -/
def noia_wayland_cache_find_surface (cache : NoiaWaylandCache)
    (sid : NoiaSurfaceId) : Option NoiaWaylandSurface :=
  if sid = scInvalidSurfaceId then none else noia_store_find cache.surfaces sid

/-- Region lookup from `wayland-cache.c` (`noia_wayland_cache_find_region`):
null for the invalid id or an absent id (the failure is logged). -/
def noia_wayland_cache_find_region (cache : NoiaWaylandCache)
    (rid : NoiaItemId) : Option NoiaWaylandRegion :=
  if rid = scInvalidItemId then none else noia_store_find cache.regions rid

/-- Client/resource pair from `wayland-cache.h` (`NoiaWaylandRc`); both
pointers may be null. -/
structure NoiaWaylandRc where
  cl : Option Nat
  rc : Option WlResource
deriving DecidableEq, Repr

/-- Most-called helper from `wayland-cache.c`
(`noia_wayland_cache_get_rc_for_sid`): resolve a surface id to its `surface`
slot resource and that resource's client; both null when the surface is
absent or the slot is empty. -/
def noia_wayland_cache_get_rc_for_sid (cache : NoiaWaylandCache)
    (sid : NoiaSurfaceId) : NoiaWaylandRc :=
  match noia_wayland_cache_find_surface cache sid with
  | none => { cl := none, rc := none }
  | some surface =>
    match surface.resources SurfaceResourceType.surface with
    | none => { cl := none, rc := none }
    | some rc => { cl := some rc.client, rc := some rc }

/-- Region creation from `wayland-cache.c` (`noia_wayland_cache_create_region`):
generate a fresh id, store a zero-initialised region under it and return the
id.  The `draws` argument is the `rand()` stream consumed by
`noia_store_generate_new_id`. -/
def noia_wayland_cache_create_region (cache : NoiaWaylandCache)
    (draws : List Nat) : Option (NoiaItemId × NoiaWaylandCache) :=
  match noia_store_generate_new_id cache.regions draws with
  | none => none
  | some rid =>
    some (rid, { cache with regions := (rid, noia_wayland_region_new) :: cache.regions })

/-- Replacement of the region stored under `rid` (the in-place mutation of
the found `NoiaWaylandRegion*`). -/
def storeUpdateRegion (l : List (NoiaItemId × NoiaWaylandRegion))
    (rid : NoiaItemId) (r : NoiaWaylandRegion) :
    List (NoiaItemId × NoiaWaylandRegion) :=
  l.map (fun p => if p.1 = rid then (p.1, r) else p)

/-- Replacement of the surface stored under `sid` (the in-place mutation of
the found `NoiaWaylandSurface*`). -/
def storeUpdateSurface (l : List (NoiaSurfaceId × NoiaWaylandSurface))
    (sid : NoiaSurfaceId) (s : NoiaWaylandSurface) :
    List (NoiaSurfaceId × NoiaWaylandSurface) :=
  l.map (fun p => if p.1 = sid then (p.1, s) else p)

/-- Facade entry from `wayland-facade.c` (`noia_wayland_facade_inflate_region`),
serving the client request `region.add`: look the region up in the cache and
inflate it.  When the lookup fails the source passes the null pointer into
`noia_wayland_region_inflate`, whose invalid-region branch writes through it
(`self->pos.x = x;`) — a null-pointer dereference; that crash is modelled as
`none`. -/
def noia_wayland_facade_inflate_region (cache : NoiaWaylandCache)
    (rid : NoiaItemId) (x y width height : Int) : Option NoiaWaylandCache :=
  match noia_wayland_cache_find_region cache rid with
  | none => none
  | some region =>
    some { cache with regions :=
      (storeUpdateRegion cache.regions rid
        (noia_wayland_region_inflate region x y width height)) }

/-- C1: on a cache holding no regions, the client request `region.add` for
region id 1 (routed to `noia_wayland_facade_inflate_region`) reaches the
null-pointer dereference in `noia_wayland_region_inflate` instead of being a
logged no-op: the call crashes the compositor. -/
theorem C1_inflate_absent_region_crashes :
    noia_wayland_facade_inflate_region
      { surfaces := [], regions := [], keyboard_resources := [],
        pointer_resources := [], data_device_resources := [] }
      1 2 3 4 5 = none := by
  rfl

/-- Clipboard transfer from `wayland-transfer.c` (`NoiaWaylandTransfer`): the
data-source resource plus the ordered offered MIME types. -/
structure NoiaWaylandTransfer where
  rc : WlResource
  mimetypes : List String
deriving DecidableEq, Repr

/-- Frontend state from `wayland-state.h` (`NoiaWaylandState`).  The XKB
keyboard state it also carries wraps the external xkbcommon library and is
not modelled; the gateway key handler below receives the outcome of its
update as inputs. -/
structure NoiaWaylandState where
  keyboard_focused_sid : NoiaSurfaceId
  pointer_focused_sid : NoiaSurfaceId
  current_transfer : Option NoiaWaylandTransfer
deriving DecidableEq, Repr

/-- Serial generation from `wayland-engine.c`
(`noia_wayland_engine_next_serial`, delegating to `wl_display_next_serial`):
the display's monotonic counter is advanced and the new value returned. -/
def noia_wayland_engine_next_serial (counter : Nat) : Nat × Nat :=
  (counter + 1, counter + 1)

/-- Protocol events emitted to client resources; one constructor per
`wl_..._send_...` call (or resource destruction) in the sources.  The first
argument is always the resource the event is sent to. -/
inductive WlEvent
  | keyboard_leave (target : WlResource) (serial : Nat) (surface_rc : Option WlResource)
  | keyboard_enter (target : WlResource) (serial : Nat) (surface_rc : Option WlResource)
  | keyboard_key (target : WlResource) (serial time code kstate : Nat)
  | keyboard_modifiers (target : WlResource) (serial : Nat)
      (depressed latched locked effective : Int)
  | keyboard_keymap (target : WlResource) (format fd size : Nat)
  | pointer_leave (target : WlResource) (serial : Nat) (surface_rc : Option WlResource)
  | pointer_enter (target : WlResource) (serial : Nat) (surface_rc : Option WlResource)
      (fx fy : Int)
  | pointer_motion_ev (target : WlResource) (ms : Int) (fx fy : Int)
  | pointer_button_ev (target : WlResource) (serial time button bstate : Nat)
  | pointer_axis_discrete_ev (target : WlResource) (axis : Nat) (value : Int)
  | pointer_axis_ev (target : WlResource) (time axis : Nat) (value : Int)
  | pointer_axis_stop_ev (target : WlResource) (time axis : Nat)
  | buffer_release (target : WlResource)
  | callback_done (target : WlResource) (ms : Nat)
  | resource_destroyed (target : WlResource)
  | data_device_data_offer (target offer : WlResource)
  | data_offer_offer (target : WlResource) (mime : String)
  | data_offer_action (target : WlResource) (action : Nat)
  | data_device_selection (target offer : WlResource)
  | shell_surface_configure (target : WlResource) (edges : Nat) (width height : Int)
  | xdg_surface_configure (target : WlResource) (width height : Int)
      (states : List Nat) (serial : Nat)
deriving DecidableEq, Repr

/-- Selection fan-out from `wayland-gateway.c`
(`noia_wayland_gateway_send_selection`): when a current transfer exists, each
data-device resource of the keyboard-focused client receives a freshly
created data-offer resource (`noia_wayland_data_offer_bind`, modelled with
the allocation counter `alloc`), one `offer` per MIME type, the `copy`
action and finally `selection`.  Returns the new allocation counter and the
emitted events. -/
def noia_wayland_gateway_send_selection (state : NoiaWaylandState)
    (cache : NoiaWaylandCache) (alloc : Nat) : Nat × List WlEvent :=
  let kfrc := noia_wayland_cache_get_rc_for_sid cache state.keyboard_focused_sid
  match state.current_transfer with
  | none => (alloc, [])
  | some transfer =>
    cache.data_device_resources.foldl
      (fun acc ddrc =>
        if some ddrc.client = kfrc.cl then
          let offer_rc : WlResource := { client := ddrc.client, id := acc.1 }
          (acc.1 + 1,
           acc.2 ++ [WlEvent.data_device_data_offer ddrc offer_rc]
                 ++ transfer.mimetypes.map (fun m => WlEvent.data_offer_offer offer_rc m)
                 ++ [WlEvent.data_offer_action offer_rc 1,
                     WlEvent.data_device_selection ddrc offer_rc])
        else acc)
      (alloc, [])

/-- Maximised flag from `perceptia.h` (`NOIA_SURFACE_STATE_MAXIMIZED`). -/
def noiaSurfaceStateMaximized : Nat := 1

/-- The `maximized` state of the xdg-shell v5 protocol
(`XDG_SURFACE_STATE_MAXIMIZED` from the generated protocol header). -/
def xdgSurfaceStateMaximized : Nat := 1

/-- The `activated` state of the xdg-shell v5 protocol
(`XDG_SURFACE_STATE_ACTIVATED` from the generated protocol header). -/
def xdgSurfaceStateActivated : Nat := 4

/-- Configure synthesis from `wayland-gateway.c`
(`noia_wayland_gateway_surface_reconfigured`): a surface with a
`shell_surface` slot receives `shell_surface.configure`; otherwise one with
an `xdg_shell_surface` slot receives `xdg_surface.configure` with the state
array built from the maximised flag and comparison against the
keyboard-focused sid, under a fresh serial.  Returns the serial counter and
the events. -/
def noia_wayland_gateway_surface_reconfigured (state : NoiaWaylandState)
    (cache : NoiaWaylandCache) (serial : Nat) (sid : NoiaSurfaceId)
    (size : NoiaSize) (state_flags : Nat) : Nat × List WlEvent :=
  match noia_wayland_cache_find_surface cache sid with
  | none => (serial, [])
  | some surface =>
    match surface.resources SurfaceResourceType.shell_surface with
    | some src =>
      (serial, [WlEvent.shell_surface_configure src 0 size.width size.height])
    | none =>
      match surface.resources SurfaceResourceType.xdg_shell_surface with
      | some xrc =>
        let states :=
          (if state_flags &&& noiaSurfaceStateMaximized ≠ 0
           then [xdgSurfaceStateMaximized] else [])
          ++ (if sid = state.keyboard_focused_sid
              then [xdgSurfaceStateActivated] else [])
        let sn := noia_wayland_engine_next_serial serial
        (sn.2, [WlEvent.xdg_surface_configure xrc size.width size.height states sn.1])
      | none => (serial, [])

/-- Result of a keyboard focus update: the new frontend state, the serial
and allocation counters, and the emitted events in order. -/
structure GatewayResult where
  state : NoiaWaylandState
  serial : Nat
  alloc : Nat
  events : List WlEvent
deriving DecidableEq, Repr

/-- Keyboard focus hand-off from `wayland-gateway.c`
(`noia_wayland_gateway_keyboard_focus_update`).  The old and new sids are
resolved to clients; only when the clients differ are `leave`/`enter`
(serial 0, empty key array) sent over the keyboard resource list, the
focused sid updated and the selection re-sent.  Both surfaces are then told
their states changed via `surface_reconfigured`. -/
def noia_wayland_gateway_keyboard_focus_update (state : NoiaWaylandState)
    (cache : NoiaWaylandCache) (serial alloc : Nat)
    (old_sid : NoiaSurfaceId) (old_size : NoiaSize) (old_flags : Nat)
    (new_sid : NoiaSurfaceId) (new_size : NoiaSize) (new_flags : Nat) :
    GatewayResult :=
  let newRc := noia_wayland_cache_get_rc_for_sid cache new_sid
  let oldRc := noia_wayland_cache_get_rc_for_sid cache old_sid
  let step1 :=
    if newRc.cl ≠ oldRc.cl then
      let st0 := { state with keyboard_focused_sid := scInvalidItemId }
      let evsFocus := cache.keyboard_resources.flatMap (fun rc =>
        (if some rc.client = oldRc.cl
         then [WlEvent.keyboard_leave rc 0 oldRc.rc] else [])
        ++ (if some rc.client = newRc.cl
            then [WlEvent.keyboard_enter rc 0 newRc.rc] else []))
      let st1 := { st0 with keyboard_focused_sid := new_sid }
      let sel := noia_wayland_gateway_send_selection st1 cache alloc
      (st1, sel.1, evsFocus ++ sel.2)
    else (state, alloc, [])
  let recOld := noia_wayland_gateway_surface_reconfigured step1.1 cache serial
                  old_sid old_size old_flags
  let recNew := noia_wayland_gateway_surface_reconfigured step1.1 cache recOld.1
                  new_sid new_size new_flags
  { state := step1.1, serial := recNew.1, alloc := step1.2.1,
    events := step1.2.2 ++ recOld.2 ++ recNew.2 }

/-- Key modifier snapshot from `utils-keyboard-state.h` (`NoiaKeyMods`). -/
structure NoiaKeyMods where
  depressed : Int
  latched : Int
  locked : Int
  effective : Int
deriving DecidableEq, Repr

/-- Key fan-out from `wayland-gateway.c` (`noia_wayland_gateway_key`).  The
xkb keyboard-state update happens first in the source; its outcome — whether
the modifier snapshot changed and the new snapshot — enters here as the
`mods_changed` and `new_mods` inputs.  With no focused surface, or a focused
surface resolving to no client, nothing is sent; otherwise one fresh serial
is minted and each keyboard resource of the focused client receives `key`,
plus `modifiers` when the snapshot changed. -/
def noia_wayland_gateway_key (state : NoiaWaylandState)
    (cache : NoiaWaylandCache) (serial : Nat) (time code kstate : Nat)
    (mods_changed : Bool) (new_mods : NoiaKeyMods) : Nat × List WlEvent :=
  if state.keyboard_focused_sid = scInvalidItemId then (serial, [])
  else
    let focused :=
      noia_wayland_cache_get_rc_for_sid cache state.keyboard_focused_sid
    match focused.cl with
    | none => (serial, [])
    | some c =>
      let sn := noia_wayland_engine_next_serial serial
      (sn.2, cache.keyboard_resources.flatMap (fun rc =>
        if rc.client = c then
          [WlEvent.keyboard_key rc sn.1 time code kstate]
          ++ (if mods_changed then
                [WlEvent.keyboard_modifiers rc sn.1 new_mods.depressed
                  new_mods.latched new_mods.locked new_mods.effective]
              else [])
        else []))

/-- Pointer focus hand-off from `wayland-gateway.c`
(`noia_wayland_gateway_pointer_focus_update`).  The previously focused sid is
read from the state; one serial is minted; then — with no client-equality
check — every pointer resource of the old client receives `leave` and every
pointer resource of the new client receives `enter` with the position in
24.8 fixed point (`wl_fixed_from_int`), and the focused sid becomes
`new_sid`. -/
def noia_wayland_gateway_pointer_focus_update (state : NoiaWaylandState)
    (cache : NoiaWaylandCache) (serial : Nat) (new_sid : NoiaSurfaceId)
    (pos : NoiaPosition) : NoiaWaylandState × Nat × List WlEvent :=
  let old_sid := state.pointer_focused_sid
  let newRc := noia_wayland_cache_get_rc_for_sid cache new_sid
  let oldRc := noia_wayland_cache_get_rc_for_sid cache old_sid
  let sn := noia_wayland_engine_next_serial serial
  let st0 := { state with pointer_focused_sid := scInvalidSurfaceId }
  let evs := cache.pointer_resources.flatMap (fun rc =>
    (if some rc.client = oldRc.cl
     then [WlEvent.pointer_leave rc sn.1 oldRc.rc] else [])
    ++ (if some rc.client = newRc.cl
        then [WlEvent.pointer_enter rc sn.1 newRc.rc (256 * pos.x) (256 * pos.y)]
        else []))
  ({ st0 with pointer_focused_sid := new_sid }, sn.2, evs)

/-- Motion fan-out from `wayland-gateway.c`
(`noia_wayland_gateway_pointer_motion`): each pointer resource of the client
owning surface `sid` receives `motion` with the position in 24.8 fixed
point; nothing when the sid resolves to no client. -/
def noia_wayland_gateway_pointer_motion (cache : NoiaWaylandCache)
    (sid : NoiaSurfaceId) (pos : NoiaPosition) (ms : Int) : List WlEvent :=
  let info := noia_wayland_cache_get_rc_for_sid cache sid
  match info.cl with
  | none => []
  | some c =>
    cache.pointer_resources.flatMap (fun rc =>
      if rc.client = c then
        [WlEvent.pointer_motion_ev rc ms (256 * pos.x) (256 * pos.y)]
      else [])

/-- Button fan-out from `wayland-gateway.c`
(`noia_wayland_gateway_pointer_button`): each pointer resource of the
focused client receives `button` under its own fresh serial; nothing when
the focused sid resolves to no client. -/
def noia_wayland_gateway_pointer_button (state : NoiaWaylandState)
    (cache : NoiaWaylandCache) (serial : Nat) (time button bstate : Nat) :
    Nat × List WlEvent :=
  let info := noia_wayland_cache_get_rc_for_sid cache state.pointer_focused_sid
  match info.cl with
  | none => (serial, [])
  | some c =>
    cache.pointer_resources.foldl
      (fun acc rc =>
        if rc.client = c then
          let sn := noia_wayland_engine_next_serial acc.1
          (sn.2, acc.2 ++ [WlEvent.pointer_button_ev rc sn.1 time button bstate])
        else acc)
      (serial, [])

/-- The `WL_POINTER_AXIS_VERTICAL_SCROLL` constant of the core protocol. -/
def wlPointerAxisVertical : Nat := 0

/-- The `WL_POINTER_AXIS_HORIZONTAL_SCROLL` constant of the core protocol. -/
def wlPointerAxisHorizontal : Nat := 1

/-- Axis fan-out from `wayland-gateway.c` (`noia_wayland_gateway_pointer_axis`):
for each pointer resource of the focused client, per axis (horizontal first):
`axis_discrete` when the discrete part is non-zero, then `axis` when the
continuous part is non-zero, else `axis_stop`; values pass through
`wl_fixed_from_double` (a factor of 256).  Nothing when the focused sid
resolves to no client. -/
def noia_wayland_gateway_pointer_axis (state : NoiaWaylandState)
    (cache : NoiaWaylandCache) (horiz vert hdiscrete vdiscrete : Int) :
    List WlEvent :=
  let info := noia_wayland_cache_get_rc_for_sid cache state.pointer_focused_sid
  match info.cl with
  | none => []
  | some c =>
    cache.pointer_resources.flatMap (fun rc =>
      if rc.client = c then
        (if hdiscrete ≠ 0
         then [WlEvent.pointer_axis_discrete_ev rc wlPointerAxisHorizontal
                 (256 * hdiscrete)] else [])
        ++ (if horiz ≠ 0
            then [WlEvent.pointer_axis_ev rc 0 wlPointerAxisHorizontal (256 * horiz)]
            else [WlEvent.pointer_axis_stop_ev rc 0 wlPointerAxisHorizontal])
        ++ (if vdiscrete ≠ 0
            then [WlEvent.pointer_axis_discrete_ev rc wlPointerAxisVertical
                    (256 * vdiscrete)] else [])
        ++ (if vert ≠ 0
            then [WlEvent.pointer_axis_ev rc 0 wlPointerAxisVertical (256 * vert)]
            else [WlEvent.pointer_axis_stop_ev rc 0 wlPointerAxisVertical])
      else [])

/-- Frame pump from `wayland-gateway.c` (`noia_wayland_gateway_screen_refresh`):
for a known surface, when the frame queue is non-empty and the `buffer` slot
is set, `buffer.release` is queued on that buffer and the slot cleared; then
each queued frame resource is popped in FIFO order, receives
`callback.done(ms)` and is destroyed. -/
def noia_wayland_gateway_screen_refresh (cache : NoiaWaylandCache)
    (sid : NoiaSurfaceId) (ms : Nat) : NoiaWaylandCache × List WlEvent :=
  match noia_wayland_cache_find_surface cache sid with
  | none => (cache, [])
  | some surface =>
    let step1 :=
      if surface.frame_resources.length > 0 then
        match surface.resources SurfaceResourceType.buffer with
        | some buffer_rc =>
          (noia_wayland_surface_remove_resource surface
             SurfaceResourceType.buffer buffer_rc,
           [WlEvent.buffer_release buffer_rc])
        | none => (surface, [])
      else (surface, [])
    let evs2 := step1.1.frame_resources.flatMap (fun rc =>
      [WlEvent.callback_done rc ms, WlEvent.resource_destroyed rc])
    ({ cache with surfaces :=
        (storeUpdateSurface cache.surfaces sid
          { step1.1 with frame_resources := [] }) },
     step1.2 ++ evs2)

/-- Calls into the Coordinator made by the Facade (the external interface of
paragraph 4.6 of the spec), recorded as data. -/
inductive CoordinatorCall
  | surface_set_offset (sid : NoiaSurfaceId) (pos : NoiaPosition)
  | surface_set_requested_size (sid : NoiaSurfaceId) (size : NoiaSize)
  | surface_reset_offset_and_requested_size (sid : NoiaSurfaceId)
deriving DecidableEq, Repr

/-- Facade entry from `wayland-facade.c` (`noia_wayland_facade_set_input_region`):
when the region is found — with no validity check — its position and size are
forwarded as offset and requested size; only when the lookup fails are both
reset. -/
def noia_wayland_facade_set_input_region (cache : NoiaWaylandCache)
    (sid : NoiaSurfaceId) (rid : NoiaItemId) : List CoordinatorCall :=
  match noia_wayland_cache_find_region cache rid with
  | some region =>
    [CoordinatorCall.surface_set_offset sid region.pos,
     CoordinatorCall.surface_set_requested_size sid region.size]
  | none =>
    [CoordinatorCall.surface_reset_offset_and_requested_size sid]

/-- Facade entry from `wayland-facade.c`
(`noia_wayland_facade_add_keyboard_resource`): the resource is appended to
the keyboard list; when its client currently holds keyboard focus it
immediately receives `keyboard.enter` (fresh serial, empty key array). -/
def noia_wayland_facade_add_keyboard_resource (state : NoiaWaylandState)
    (cache : NoiaWaylandCache) (serial : Nat) (rc : WlResource) :
    NoiaWaylandCache × Nat × List WlEvent :=
  let cache1 :=
    { cache with keyboard_resources := cache.keyboard_resources ++ [rc] }
  let focused :=
    noia_wayland_cache_get_rc_for_sid cache1 state.keyboard_focused_sid
  match focused.cl with
  | none => (cache1, serial, [])
  | some c =>
    if rc.client = c then
      let sn := noia_wayland_engine_next_serial serial
      (cache1, sn.2, [WlEvent.keyboard_enter rc sn.1 focused.rc])
    else (cache1, serial, [])

/-- Keyboard bind from `wayland-protocol-keyboard.c`
(`noia_wayland_keyboard_bind`), successful resource creation path: the
resource is created at the requested version, its implementation and unbind
callback installed, and it is stored through the facade.  The keymap send
(`wl_keyboard_send_keymap`) present in the source is commented out behind a
FIXME, so no keymap event is produced. -/
def noia_wayland_keyboard_bind (state : NoiaWaylandState)
    (cache : NoiaWaylandCache) (serial : Nat) (rc : WlResource) :
    NoiaWaylandCache × Nat × List WlEvent :=
  noia_wayland_facade_add_keyboard_resource state cache serial rc

/-- Recogniser for the keymap event. -/
def WlEvent.isKeymap : WlEvent → Bool
  | WlEvent.keyboard_keymap _ _ _ _ => true
  | _ => false

/-- Recogniser for keyboard events addressed to a resource of client `cl`. -/
def WlEvent.isKeyboardEventTo (cl : Nat) : WlEvent → Bool
  | WlEvent.keyboard_leave t _ _ => t.client == cl
  | WlEvent.keyboard_enter t _ _ => t.client == cl
  | WlEvent.keyboard_key t _ _ _ _ => t.client == cl
  | WlEvent.keyboard_modifiers t _ _ _ _ _ => t.client == cl
  | WlEvent.keyboard_keymap t _ _ _ => t.client == cl
  | _ => false

/-- Subsequence of keyboard events delivered to client `cl`, in emission
order. -/
def keyboardEventsTo (cl : Nat) (evs : List WlEvent) : List WlEvent :=
  evs.filter (WlEvent.isKeyboardEventTo cl)

/-- C3 counterexample: surfaces 1 and 2 both belong to client 7 and the
frontend state records focus on sid 5; after
`keyboard_focus_update(old = 1, new = 2)` the focused sid is still 5, not
the new sid 2 — the same-client short-circuit skips the update. -/
theorem C3_same_client_keeps_old_sid :
    (noia_wayland_cache_get_rc_for_sid
        { surfaces :=
            [(1, noia_wayland_surface_add_resource noia_wayland_surface_new
                   SurfaceResourceType.surface { client := 7, id := 10 }),
             (2, noia_wayland_surface_add_resource noia_wayland_surface_new
                   SurfaceResourceType.surface { client := 7, id := 11 })],
          regions := [], keyboard_resources := [], pointer_resources := [],
          data_device_resources := [] } 1).cl
      = (noia_wayland_cache_get_rc_for_sid
          { surfaces :=
              [(1, noia_wayland_surface_add_resource noia_wayland_surface_new
                     SurfaceResourceType.surface { client := 7, id := 10 }),
               (2, noia_wayland_surface_add_resource noia_wayland_surface_new
                     SurfaceResourceType.surface { client := 7, id := 11 })],
            regions := [], keyboard_resources := [], pointer_resources := [],
            data_device_resources := [] } 2).cl
  ∧ (noia_wayland_gateway_keyboard_focus_update
        { keyboard_focused_sid := 5, pointer_focused_sid := 0,
          current_transfer := none }
        { surfaces :=
            [(1, noia_wayland_surface_add_resource noia_wayland_surface_new
                   SurfaceResourceType.surface { client := 7, id := 10 }),
             (2, noia_wayland_surface_add_resource noia_wayland_surface_new
                   SurfaceResourceType.surface { client := 7, id := 11 })],
          regions := [], keyboard_resources := [], pointer_resources := [],
          data_device_resources := [] }
        0 0 1 { width := 0, height := 0 } 0 2 { width := 0, height := 0 } 0
      ).state.keyboard_focused_sid = 5
  ∧ (5 : NoiaSurfaceId) ≠ 2 := by
  refine ⟨by decide, by decide, by decide⟩

/-- C3 as amended: after `keyboard_focus_update`, the focused sid equals the
new sid whenever the resolved old and new clients differ; when they are
equal the whole frontend state is left unchanged. -/
theorem C3_focus_update_sid (state : NoiaWaylandState)
    (cache : NoiaWaylandCache) (serial alloc : Nat)
    (old_sid new_sid : NoiaSurfaceId) (old_size new_size : NoiaSize)
    (old_flags new_flags : Nat) :
    ((noia_wayland_cache_get_rc_for_sid cache new_sid).cl
        ≠ (noia_wayland_cache_get_rc_for_sid cache old_sid).cl →
      (noia_wayland_gateway_keyboard_focus_update state cache serial alloc
          old_sid old_size old_flags new_sid new_size new_flags
        ).state.keyboard_focused_sid = new_sid)
  ∧ ((noia_wayland_cache_get_rc_for_sid cache new_sid).cl
        = (noia_wayland_cache_get_rc_for_sid cache old_sid).cl →
      (noia_wayland_gateway_keyboard_focus_update state cache serial alloc
          old_sid old_size old_flags new_sid new_size new_flags
        ).state = state) := by
  constructor
  · intro h
    simp [noia_wayland_gateway_keyboard_focus_update, h]
  · intro h
    simp [noia_wayland_gateway_keyboard_focus_update, h]

/-- C3 witness: with surface 1 of client 1 and surface 2 of client 2, the
hand-off from sid 1 to sid 2 sets the focused sid to 2. -/
theorem C3_focus_update_sid_witness :
    (noia_wayland_gateway_keyboard_focus_update
        { keyboard_focused_sid := 1, pointer_focused_sid := 0,
          current_transfer := none }
        { surfaces :=
            [(1, noia_wayland_surface_add_resource noia_wayland_surface_new
                   SurfaceResourceType.surface { client := 1, id := 10 }),
             (2, noia_wayland_surface_add_resource noia_wayland_surface_new
                   SurfaceResourceType.surface { client := 2, id := 11 })],
          regions := [], keyboard_resources := [], pointer_resources := [],
          data_device_resources := [] }
        0 0 1 { width := 0, height := 0 } 0 2 { width := 0, height := 0 } 0
      ).state.keyboard_focused_sid = 2 :=
  (C3_focus_update_sid
      { keyboard_focused_sid := 1, pointer_focused_sid := 0,
        current_transfer := none }
      { surfaces :=
          [(1, noia_wayland_surface_add_resource noia_wayland_surface_new
                 SurfaceResourceType.surface { client := 1, id := 10 }),
           (2, noia_wayland_surface_add_resource noia_wayland_surface_new
                 SurfaceResourceType.surface { client := 2, id := 11 })],
        regions := [], keyboard_resources := [], pointer_resources := [],
        data_device_resources := [] }
      0 0 1 2 { width := 0, height := 0 } { width := 0, height := 0 }
      0 0).1 (by decide)

/-- C4 counterexample: surfaces 1 and 2 both belong to client 7, which owns
one pointer resource; `pointer_focus_update` from focused sid 1 to sid 2
emits a leave and an enter to that client instead of short-circuiting. -/
theorem C4_same_client_still_emits :
    (noia_wayland_cache_get_rc_for_sid
        { surfaces :=
            [(1, noia_wayland_surface_add_resource noia_wayland_surface_new
                   SurfaceResourceType.surface { client := 7, id := 10 }),
             (2, noia_wayland_surface_add_resource noia_wayland_surface_new
                   SurfaceResourceType.surface { client := 7, id := 11 })],
          regions := [], keyboard_resources := [],
          pointer_resources := [{ client := 7, id := 20 }],
          data_device_resources := [] } 2).cl
      = (noia_wayland_cache_get_rc_for_sid
          { surfaces :=
              [(1, noia_wayland_surface_add_resource noia_wayland_surface_new
                     SurfaceResourceType.surface { client := 7, id := 10 }),
               (2, noia_wayland_surface_add_resource noia_wayland_surface_new
                     SurfaceResourceType.surface { client := 7, id := 11 })],
            regions := [], keyboard_resources := [],
            pointer_resources := [{ client := 7, id := 20 }],
            data_device_resources := [] } 1).cl
  ∧ (noia_wayland_gateway_pointer_focus_update
        { keyboard_focused_sid := 0, pointer_focused_sid := 1,
          current_transfer := none }
        { surfaces :=
            [(1, noia_wayland_surface_add_resource noia_wayland_surface_new
                   SurfaceResourceType.surface { client := 7, id := 10 }),
             (2, noia_wayland_surface_add_resource noia_wayland_surface_new
                   SurfaceResourceType.surface { client := 7, id := 11 })],
          regions := [], keyboard_resources := [],
          pointer_resources := [{ client := 7, id := 20 }],
          data_device_resources := [] }
        0 2 { x := 3, y := 4 }).2.2
      = [WlEvent.pointer_leave { client := 7, id := 20 } 1
           (some { client := 7, id := 10 }),
         WlEvent.pointer_enter { client := 7, id := 20 } 1
           (some { client := 7, id := 11 }) 768 1024]
  ∧ ([WlEvent.pointer_leave { client := 7, id := 20 } 1
        (some { client := 7, id := 10 }),
      WlEvent.pointer_enter { client := 7, id := 20 } 1
        (some { client := 7, id := 11 }) 768 1024] : List WlEvent) ≠ [] := by
  refine ⟨by decide, by decide, by decide⟩

/-- C4 as amended: `pointer_focus_update` performs no client-equality
short-circuit — on every call, every pointer resource of the old client
receives leave and every pointer resource of the new client receives enter
carrying the position in 24.8 fixed point, whether or not the two clients
coincide. -/
theorem C4_pointer_focus_no_short_circuit (state : NoiaWaylandState)
    (cache : NoiaWaylandCache) (serial : Nat) (new_sid : NoiaSurfaceId)
    (pos : NoiaPosition) (rc : WlResource)
    (hmem : rc ∈ cache.pointer_resources) :
    ((noia_wayland_cache_get_rc_for_sid cache state.pointer_focused_sid).cl
        = some rc.client →
      WlEvent.pointer_leave rc (serial + 1)
          (noia_wayland_cache_get_rc_for_sid cache state.pointer_focused_sid).rc
        ∈ (noia_wayland_gateway_pointer_focus_update state cache serial
            new_sid pos).2.2)
  ∧ ((noia_wayland_cache_get_rc_for_sid cache new_sid).cl = some rc.client →
      WlEvent.pointer_enter rc (serial + 1)
          (noia_wayland_cache_get_rc_for_sid cache new_sid).rc
          (256 * pos.x) (256 * pos.y)
        ∈ (noia_wayland_gateway_pointer_focus_update state cache serial
            new_sid pos).2.2) := by
  constructor
  · intro h
    simp only [noia_wayland_gateway_pointer_focus_update,
      noia_wayland_engine_next_serial, List.mem_flatMap]
    exact ⟨rc, hmem, by simp [h]⟩
  · intro h
    simp only [noia_wayland_gateway_pointer_focus_update,
      noia_wayland_engine_next_serial, List.mem_flatMap]
    exact ⟨rc, hmem, by simp [h]⟩

/-- C4 witness: at the same-client instance of the counterexample, both the
leave and the enter of client 7's pointer resource occur among the emitted
events. -/
theorem C4_pointer_focus_no_short_circuit_witness :
    WlEvent.pointer_leave { client := 7, id := 20 } 1
        (noia_wayland_cache_get_rc_for_sid
          { surfaces :=
              [(1, noia_wayland_surface_add_resource noia_wayland_surface_new
                     SurfaceResourceType.surface { client := 7, id := 10 }),
               (2, noia_wayland_surface_add_resource noia_wayland_surface_new
                     SurfaceResourceType.surface { client := 7, id := 11 })],
            regions := [], keyboard_resources := [],
            pointer_resources := [{ client := 7, id := 20 }],
            data_device_resources := [] } 1).rc
      ∈ (noia_wayland_gateway_pointer_focus_update
          { keyboard_focused_sid := 0, pointer_focused_sid := 1,
            current_transfer := none }
          { surfaces :=
              [(1, noia_wayland_surface_add_resource noia_wayland_surface_new
                     SurfaceResourceType.surface { client := 7, id := 10 }),
               (2, noia_wayland_surface_add_resource noia_wayland_surface_new
                     SurfaceResourceType.surface { client := 7, id := 11 })],
            regions := [], keyboard_resources := [],
            pointer_resources := [{ client := 7, id := 20 }],
            data_device_resources := [] }
          0 2 { x := 3, y := 4 }).2.2 :=
  (C4_pointer_focus_no_short_circuit
      { keyboard_focused_sid := 0, pointer_focused_sid := 1,
        current_transfer := none }
      { surfaces :=
          [(1, noia_wayland_surface_add_resource noia_wayland_surface_new
                 SurfaceResourceType.surface { client := 7, id := 10 }),
           (2, noia_wayland_surface_add_resource noia_wayland_surface_new
                 SurfaceResourceType.surface { client := 7, id := 11 })],
        regions := [], keyboard_resources := [],
        pointer_resources := [{ client := 7, id := 20 }],
        data_device_resources := [] }
      0 2 { x := 3, y := 4 } { client := 7, id := 20 }
      (by decide)).1 (by decide)

/-- C6: a `wl_keyboard` bind emits no keymap event at all — the
`wl_keyboard_send_keymap` call in the source is commented out behind a
FIXME, so the injected keymap settings are never handed to clients. -/
theorem C6_keyboard_bind_sends_no_keymap (state : NoiaWaylandState)
    (cache : NoiaWaylandCache) (serial : Nat) (rc : WlResource) :
    ((noia_wayland_keyboard_bind state cache serial rc).2.2.filter
      WlEvent.isKeymap) = [] := by
  simp only [noia_wayland_keyboard_bind,
    noia_wayland_facade_add_keyboard_resource]
  split
  · rfl
  · split <;> rfl

/-- C8 counterexample: region 1 exists but is the zero-initialised (hence
invalid) region; `set_input_region(5, 1)` still forwards its position and
size to the Coordinator instead of resetting offset and requested size. -/
theorem C8_invalid_region_forwarded :
    noia_wayland_region_is_valid noia_wayland_region_new = false
  ∧ noia_wayland_facade_set_input_region
      { surfaces := [], regions := [(1, noia_wayland_region_new)],
        keyboard_resources := [], pointer_resources := [],
        data_device_resources := [] } 5 1
      = [CoordinatorCall.surface_set_offset 5 { x := 0, y := 0 },
         CoordinatorCall.surface_set_requested_size 5 { width := 0, height := 0 }]
  ∧ noia_wayland_facade_set_input_region
      { surfaces := [], regions := [(1, noia_wayland_region_new)],
        keyboard_resources := [], pointer_resources := [],
        data_device_resources := [] } 5 1
      ≠ [CoordinatorCall.surface_reset_offset_and_requested_size 5] := by
  refine ⟨by decide, by decide, by decide⟩

/-- C8 as amended: `set_input_region` forwards the stored rectangle as
offset and requested size whenever the region is found — valid or not — and
resets both exactly when the lookup fails (rid absent, destroyed, or the
invalid id). -/
theorem C8_set_input_region_found_or_reset (cache : NoiaWaylandCache)
    (sid : NoiaSurfaceId) (rid : NoiaItemId) :
    (∀ region, noia_wayland_cache_find_region cache rid = some region →
      noia_wayland_facade_set_input_region cache sid rid
        = [CoordinatorCall.surface_set_offset sid region.pos,
           CoordinatorCall.surface_set_requested_size sid region.size])
  ∧ (noia_wayland_cache_find_region cache rid = none →
      noia_wayland_facade_set_input_region cache sid rid
        = [CoordinatorCall.surface_reset_offset_and_requested_size sid]) := by
  constructor
  · intro region h
    simp [noia_wayland_facade_set_input_region, h]
  · intro h
    simp [noia_wayland_facade_set_input_region, h]

/-- C8 witness: on a cache holding region 1 at position (10,20) with size
(100,50), `set_input_region(5, 1)` forwards offset and requested size, and
`set_input_region(5, 2)` (absent rid) resets both. -/
theorem C8_set_input_region_witness :
    noia_wayland_facade_set_input_region
      { surfaces := [],
        regions := [(1, { pos := { x := 10, y := 20 },
                          size := { width := 100, height := 50 } })],
        keyboard_resources := [], pointer_resources := [],
        data_device_resources := [] } 5 1
      = [CoordinatorCall.surface_set_offset 5 { x := 10, y := 20 },
         CoordinatorCall.surface_set_requested_size 5 { width := 100, height := 50 }]
  ∧ noia_wayland_facade_set_input_region
      { surfaces := [],
        regions := [(1, { pos := { x := 10, y := 20 },
                          size := { width := 100, height := 50 } })],
        keyboard_resources := [], pointer_resources := [],
        data_device_resources := [] } 5 2
      = [CoordinatorCall.surface_reset_offset_and_requested_size 5] :=
  ⟨(C8_set_input_region_found_or_reset
      { surfaces := [],
        regions := [(1, { pos := { x := 10, y := 20 },
                          size := { width := 100, height := 50 } })],
        keyboard_resources := [], pointer_resources := [],
        data_device_resources := [] } 5 1).1
      { pos := { x := 10, y := 20 }, size := { width := 100, height := 50 } }
      (by decide),
   (C8_set_input_region_found_or_reset
      { surfaces := [],
        regions := [(1, { pos := { x := 10, y := 20 },
                          size := { width := 100, height := 50 } })],
        keyboard_resources := [], pointer_resources := [],
        data_device_resources := [] } 5 2).2 (by decide)⟩

/-- C7 counterexample: focus moves A → B → C where A (sid 1) belongs to
client 1 and B (sid 2) and C (sid 3) both belong to client 2.  Across the
two consecutive `keyboard_focus_update` calls, the keyboard events delivered
to client 2 consist of the single enter for B: the second call
short-circuits on client equality, so no leave for B ever follows. -/
theorem C7_same_client_no_leave :
    keyboardEventsTo 2
      ((noia_wayland_gateway_keyboard_focus_update
          { keyboard_focused_sid := 1, pointer_focused_sid := 0,
            current_transfer := none }
          { surfaces :=
              [(1, noia_wayland_surface_add_resource noia_wayland_surface_new
                     SurfaceResourceType.surface { client := 1, id := 10 }),
               (2, noia_wayland_surface_add_resource noia_wayland_surface_new
                     SurfaceResourceType.surface { client := 2, id := 11 }),
               (3, noia_wayland_surface_add_resource noia_wayland_surface_new
                     SurfaceResourceType.surface { client := 2, id := 12 })],
            regions := [],
            keyboard_resources :=
              [{ client := 1, id := 20 }, { client := 2, id := 21 }],
            pointer_resources := [], data_device_resources := [] }
          0 0 1 { width := 0, height := 0 } 0 2
          { width := 0, height := 0 } 0).events
        ++ (noia_wayland_gateway_keyboard_focus_update
            { keyboard_focused_sid := 2, pointer_focused_sid := 0,
              current_transfer := none }
            { surfaces :=
                [(1, noia_wayland_surface_add_resource noia_wayland_surface_new
                       SurfaceResourceType.surface { client := 1, id := 10 }),
                 (2, noia_wayland_surface_add_resource noia_wayland_surface_new
                       SurfaceResourceType.surface { client := 2, id := 11 }),
                 (3, noia_wayland_surface_add_resource noia_wayland_surface_new
                       SurfaceResourceType.surface { client := 2, id := 12 })],
              regions := [],
              keyboard_resources :=
                [{ client := 1, id := 20 }, { client := 2, id := 21 }],
              pointer_resources := [], data_device_resources := [] }
            0 0 2 { width := 0, height := 0 } 0 3
            { width := 0, height := 0 } 0).events)
      = [WlEvent.keyboard_enter { client := 2, id := 21 } 0
           (some { client := 2, id := 11 })] := by
  decide

/-- C7 as amended: for focus transitions A → B → C across two consecutive
`keyboard_focus_update` calls, provided the client hosting B differs both
from the client hosting A and from the client hosting C, the keyboard
events delivered to B's client are exactly one enter for B's surface
followed by one leave for B's surface, and nothing further. -/
theorem C7_enter_then_leave (clA clB clC : Nat) (hAB : clA ≠ clB)
    (hBC : clB ≠ clC) :
    keyboardEventsTo clB
      ((noia_wayland_gateway_keyboard_focus_update
          { keyboard_focused_sid := 1, pointer_focused_sid := 0,
            current_transfer := none }
          { surfaces :=
              [(1, noia_wayland_surface_add_resource noia_wayland_surface_new
                     SurfaceResourceType.surface { client := clA, id := 10 }),
               (2, noia_wayland_surface_add_resource noia_wayland_surface_new
                     SurfaceResourceType.surface { client := clB, id := 11 }),
               (3, noia_wayland_surface_add_resource noia_wayland_surface_new
                     SurfaceResourceType.surface { client := clC, id := 12 })],
            regions := [],
            keyboard_resources :=
              [{ client := clA, id := 20 }, { client := clB, id := 21 },
               { client := clC, id := 22 }],
            pointer_resources := [], data_device_resources := [] }
          0 0 1 { width := 0, height := 0 } 0 2
          { width := 0, height := 0 } 0).events
        ++ (noia_wayland_gateway_keyboard_focus_update
            { keyboard_focused_sid := 2, pointer_focused_sid := 0,
              current_transfer := none }
            { surfaces :=
                [(1, noia_wayland_surface_add_resource noia_wayland_surface_new
                       SurfaceResourceType.surface { client := clA, id := 10 }),
                 (2, noia_wayland_surface_add_resource noia_wayland_surface_new
                       SurfaceResourceType.surface { client := clB, id := 11 }),
                 (3, noia_wayland_surface_add_resource noia_wayland_surface_new
                       SurfaceResourceType.surface { client := clC, id := 12 })],
              regions := [],
              keyboard_resources :=
                [{ client := clA, id := 20 }, { client := clB, id := 21 },
                 { client := clC, id := 22 }],
              pointer_resources := [], data_device_resources := [] }
            0 0 2 { width := 0, height := 0 } 0 3
            { width := 0, height := 0 } 0).events)
      = [WlEvent.keyboard_enter { client := clB, id := 21 } 0
           (some { client := clB, id := 11 }),
         WlEvent.keyboard_leave { client := clB, id := 21 } 0
           (some { client := clB, id := 11 })] := by
  simp [noia_wayland_gateway_keyboard_focus_update,
    noia_wayland_cache_get_rc_for_sid, noia_wayland_cache_find_surface,
    noia_store_find, noia_wayland_surface_add_resource,
    noia_wayland_surface_new, setResource, scInvalidSurfaceId,
    scInvalidItemId, noia_wayland_gateway_send_selection,
    noia_wayland_gateway_surface_reconfigured, keyboardEventsTo,
    WlEvent.isKeyboardEventTo, hAB, hBC, Ne.symm hAB, Ne.symm hBC]
  rcases eq_or_ne clC clA with hCA | hCA <;>
    simp [hCA, WlEvent.isKeyboardEventTo, hAB, Ne.symm hAB, hBC, Ne.symm hBC]

/-- C7 witness: at clients 1, 2, 3 the amended pairing holds. -/
theorem C7_enter_then_leave_witness :
    keyboardEventsTo 2
      ((noia_wayland_gateway_keyboard_focus_update
          { keyboard_focused_sid := 1, pointer_focused_sid := 0,
            current_transfer := none }
          { surfaces :=
              [(1, noia_wayland_surface_add_resource noia_wayland_surface_new
                     SurfaceResourceType.surface { client := 1, id := 10 }),
               (2, noia_wayland_surface_add_resource noia_wayland_surface_new
                     SurfaceResourceType.surface { client := 2, id := 11 }),
               (3, noia_wayland_surface_add_resource noia_wayland_surface_new
                     SurfaceResourceType.surface { client := 3, id := 12 })],
            regions := [],
            keyboard_resources :=
              [{ client := 1, id := 20 }, { client := 2, id := 21 },
               { client := 3, id := 22 }],
            pointer_resources := [], data_device_resources := [] }
          0 0 1 { width := 0, height := 0 } 0 2
          { width := 0, height := 0 } 0).events
        ++ (noia_wayland_gateway_keyboard_focus_update
            { keyboard_focused_sid := 2, pointer_focused_sid := 0,
              current_transfer := none }
            { surfaces :=
                [(1, noia_wayland_surface_add_resource noia_wayland_surface_new
                       SurfaceResourceType.surface { client := 1, id := 10 }),
                 (2, noia_wayland_surface_add_resource noia_wayland_surface_new
                       SurfaceResourceType.surface { client := 2, id := 11 }),
                 (3, noia_wayland_surface_add_resource noia_wayland_surface_new
                       SurfaceResourceType.surface { client := 3, id := 12 })],
              regions := [],
              keyboard_resources :=
                [{ client := 1, id := 20 }, { client := 2, id := 21 },
                 { client := 3, id := 22 }],
              pointer_resources := [], data_device_resources := [] }
            0 0 2 { width := 0, height := 0 } 0 3
            { width := 0, height := 0 } 0).events)
      = [WlEvent.keyboard_enter { client := 2, id := 21 } 0
           (some { client := 2, id := 11 }),
         WlEvent.keyboard_leave { client := 2, id := 21 } 0
           (some { client := 2, id := 11 })] :=
  C7_enter_then_leave 1 2 3 (by decide) (by decide)

/-- Lookup after an in-place update: when the key was present, the store
afterwards holds the new surface under it. -/
theorem storeFind_update (l : List (NoiaSurfaceId × NoiaWaylandSurface))
    (sid : NoiaSurfaceId) (s0 s : NoiaWaylandSurface)
    (h : noia_store_find l sid = some s0) :
    noia_store_find (storeUpdateSurface l sid s) sid = some s := by
  induction l with
  | nil => simp [noia_store_find] at h
  | cons p rest ih =>
    by_cases hp : p.1 = sid
    · simp [noia_store_find, storeUpdateSurface, hp]
    · have h2 : noia_store_find rest sid = some s0 := by
        simpa [noia_store_find, List.find?_cons, hp] using h
      have := ih h2
      simpa [noia_store_find, storeUpdateSurface, List.find?_cons, hp]
        using this

/-- C5: `screen_refresh` on a known surface.  With an empty frame queue no
event is emitted at all; with a non-empty queue and a set buffer slot the
events are exactly one `buffer.release` on that buffer followed, in FIFO
registration order, by `callback.done(ms)` and destruction of each queued
frame resource, and afterwards the surface's buffer slot is cleared and its
frame queue empty. -/
theorem C5_screen_refresh (cache : NoiaWaylandCache) (sid : NoiaSurfaceId)
    (ms : Nat) (surface : NoiaWaylandSurface)
    (h : noia_wayland_cache_find_surface cache sid = some surface) :
    (surface.frame_resources = [] →
      (noia_wayland_gateway_screen_refresh cache sid ms).2 = [])
  ∧ (∀ b, surface.frame_resources ≠ [] →
      surface.resources SurfaceResourceType.buffer = some b →
      (noia_wayland_gateway_screen_refresh cache sid ms).2
        = WlEvent.buffer_release b
            :: surface.frame_resources.flatMap (fun rc =>
                 [WlEvent.callback_done rc ms, WlEvent.resource_destroyed rc])
      ∧ ∃ s2, noia_wayland_cache_find_surface
                  (noia_wayland_gateway_screen_refresh cache sid ms).1 sid
                = some s2
            ∧ s2.resources SurfaceResourceType.buffer = none
            ∧ s2.frame_resources = []) := by
  have hsid : ¬ sid = scInvalidSurfaceId := by
    intro h0
    rw [h0] at h
    simp [noia_wayland_cache_find_surface] at h
  have hfind : noia_store_find cache.surfaces sid = some surface := by
    simpa [noia_wayland_cache_find_surface, hsid] using h
  constructor
  · intro hempty
    simp [noia_wayland_gateway_screen_refresh, h, hempty]
  · intro b hne hbuf
    have hlen : surface.frame_resources.length > 0 :=
      List.length_pos.mpr hne
    constructor
    · simp [noia_wayland_gateway_screen_refresh, h, hbuf, hlen,
        noia_wayland_surface_remove_resource, setResource]
    · refine ⟨{ noia_wayland_surface_remove_resource surface
                  SurfaceResourceType.buffer b with frame_resources := [] },
        ?_, ?_, ?_⟩
      · simp only [noia_wayland_gateway_screen_refresh, h, hbuf, hlen,
          gt_iff_lt, if_pos]
        simp only [noia_wayland_cache_find_surface, hsid, if_neg,
          if_false]
        exact storeFind_update cache.surfaces sid surface _ hfind
      · simp [noia_wayland_surface_remove_resource, setResource]
      · rfl

/-- C5 witness: surface 1 carries buffer (1,30) and the frame queue
[(1,40),(1,41)]; `screen_refresh` at ms 1234 releases the buffer and then
fires and destroys both callbacks in registration order, leaving the buffer
slot clear and the queue empty. -/
theorem C5_screen_refresh_witness :
    (noia_wayland_gateway_screen_refresh
        { surfaces :=
            [(1, noia_wayland_surface_add_resource
                   (noia_wayland_surface_add_resource
                     (noia_wayland_surface_add_resource
                       (noia_wayland_surface_add_resource
                         noia_wayland_surface_new
                         SurfaceResourceType.surface { client := 1, id := 10 })
                       SurfaceResourceType.buffer { client := 1, id := 30 })
                     SurfaceResourceType.frame { client := 1, id := 40 })
                   SurfaceResourceType.frame { client := 1, id := 41 })],
          regions := [], keyboard_resources := [], pointer_resources := [],
          data_device_resources := [] } 1 1234).2
      = WlEvent.buffer_release { client := 1, id := 30 }
          :: ([{ client := 1, id := 40 }, { client := 1, id := 41 }] :
                List WlResource).flatMap (fun rc =>
               [WlEvent.callback_done rc 1234, WlEvent.resource_destroyed rc])
  ∧ ∃ s2, noia_wayland_cache_find_surface
              (noia_wayland_gateway_screen_refresh
                { surfaces :=
                    [(1, noia_wayland_surface_add_resource
                           (noia_wayland_surface_add_resource
                             (noia_wayland_surface_add_resource
                               (noia_wayland_surface_add_resource
                                 noia_wayland_surface_new
                                 SurfaceResourceType.surface
                                 { client := 1, id := 10 })
                               SurfaceResourceType.buffer { client := 1, id := 30 })
                             SurfaceResourceType.frame { client := 1, id := 40 })
                           SurfaceResourceType.frame { client := 1, id := 41 })],
                  regions := [], keyboard_resources := [],
                  pointer_resources := [],
                  data_device_resources := [] } 1 1234).1 1
            = some s2
        ∧ s2.resources SurfaceResourceType.buffer = none
        ∧ s2.frame_resources = [] :=
  (C5_screen_refresh
      { surfaces :=
          [(1, noia_wayland_surface_add_resource
                 (noia_wayland_surface_add_resource
                   (noia_wayland_surface_add_resource
                     (noia_wayland_surface_add_resource
                       noia_wayland_surface_new
                       SurfaceResourceType.surface { client := 1, id := 10 })
                     SurfaceResourceType.buffer { client := 1, id := 30 })
                   SurfaceResourceType.frame { client := 1, id := 40 })
                 SurfaceResourceType.frame { client := 1, id := 41 })],
        regions := [], keyboard_resources := [], pointer_resources := [],
        data_device_resources := [] } 1 1234
      (noia_wayland_surface_add_resource
        (noia_wayland_surface_add_resource
          (noia_wayland_surface_add_resource
            (noia_wayland_surface_add_resource
              noia_wayland_surface_new
              SurfaceResourceType.surface { client := 1, id := 10 })
            SurfaceResourceType.buffer { client := 1, id := 30 })
          SurfaceResourceType.frame { client := 1, id := 40 })
        SurfaceResourceType.frame { client := 1, id := 41 })
      rfl).2 { client := 1, id := 30 } (by decide) (by decide)

/-- Resolution failure: an invalid sid, an absent sid, or a record with an
empty `surface` slot all make `get_rc_for_sid` return the null pair. -/
theorem getRcForSidNone (cache : NoiaWaylandCache) (sid : NoiaSurfaceId)
    (h : sid = scInvalidSurfaceId
       ∨ noia_wayland_cache_find_surface cache sid = none
       ∨ ∃ s, noia_wayland_cache_find_surface cache sid = some s
            ∧ s.resources SurfaceResourceType.surface = none) :
    noia_wayland_cache_get_rc_for_sid cache sid = { cl := none, rc := none } := by
  rcases h with h | h | ⟨s, hs, hr⟩
  · simp [noia_wayland_cache_get_rc_for_sid, noia_wayland_cache_find_surface, h]
  · simp [noia_wayland_cache_get_rc_for_sid, h]
  · simp [noia_wayland_cache_get_rc_for_sid, hs, hr]

/-- Folding a function that never fires leaves the accumulator unchanged. -/
theorem foldlFixed {α β : Type} (f : β → α → β) (l : List α) (b : β)
    (h : ∀ acc a, a ∈ l → f acc a = acc) : l.foldl f b = b := by
  induction l generalizing b with
  | nil => rfl
  | cons a t ih =>
    rw [List.foldl_cons, h b a (by simp)]
    exact ih b (fun acc x hx => h acc x (by simp [hx]))

/-- Selection fan-out with an unresolved keyboard focus emits nothing. -/
theorem sendSelectionNoFocus (state : NoiaWaylandState)
    (cache : NoiaWaylandCache) (alloc : Nat)
    (h : noia_wayland_cache_get_rc_for_sid cache state.keyboard_focused_sid
        = { cl := none, rc := none }) :
    (noia_wayland_gateway_send_selection state cache alloc).2 = [] := by
  unfold noia_wayland_gateway_send_selection
  rw [h]
  cases state.current_transfer with
  | none => rfl
  | some t =>
    simp only
    rw [foldlFixed _ _ _ (fun acc a _ => by simp)]

/-- C9: every Gateway fan-out aimed at a focused client — key,
pointer_button, pointer_axis, pointer_motion and send_selection — emits no
protocol event when the relevant surface id is the invalid id, is absent
from the cache, or its record's `surface` slot holds no resource. -/
theorem C9_no_focus_no_events (cache : NoiaWaylandCache) (sid : NoiaSurfaceId)
    (h : sid = scInvalidSurfaceId
       ∨ noia_wayland_cache_find_surface cache sid = none
       ∨ ∃ s, noia_wayland_cache_find_surface cache sid = some s
            ∧ s.resources SurfaceResourceType.surface = none) :
    (∀ state : NoiaWaylandState, ∀ serial time code kstate : Nat,
      ∀ mods_changed : Bool, ∀ new_mods : NoiaKeyMods,
      state.keyboard_focused_sid = sid →
      (noia_wayland_gateway_key state cache serial time code kstate
        mods_changed new_mods).2 = [])
  ∧ (∀ state : NoiaWaylandState, ∀ serial time button bstate : Nat,
      state.pointer_focused_sid = sid →
      (noia_wayland_gateway_pointer_button state cache serial time button
        bstate).2 = [])
  ∧ (∀ state : NoiaWaylandState, ∀ horiz vert hdiscrete vdiscrete : Int,
      state.pointer_focused_sid = sid →
      noia_wayland_gateway_pointer_axis state cache horiz vert hdiscrete
        vdiscrete = [])
  ∧ (∀ pos : NoiaPosition, ∀ ms : Int,
      noia_wayland_gateway_pointer_motion cache sid pos ms = [])
  ∧ (∀ state : NoiaWaylandState, ∀ alloc : Nat,
      state.keyboard_focused_sid = sid →
      (noia_wayland_gateway_send_selection state cache alloc).2 = []) := by
  have hrc := getRcForSidNone cache sid h
  refine ⟨?_, ?_, ?_, ?_, ?_⟩
  · intro state serial time code kstate mods_changed new_mods hf
    unfold noia_wayland_gateway_key
    rw [hf, hrc]
    by_cases h0 : sid = scInvalidItemId <;> simp [h0]
  · intro state serial time button bstate hf
    unfold noia_wayland_gateway_pointer_button
    rw [hf, hrc]
  · intro state horiz vert hdiscrete vdiscrete hf
    unfold noia_wayland_gateway_pointer_axis
    rw [hf, hrc]
  · intro pos ms
    unfold noia_wayland_gateway_pointer_motion
    rw [hrc]
  · intro state alloc hf
    exact sendSelectionNoFocus state cache alloc (by rw [hf]; exact hrc)

/-- C9 witness: on a cache whose only surface record (sid 2) has an empty
`surface` slot and whose resource lists are non-empty, none of the five
fan-outs — aimed at the absent sid 3 — emits an event. -/
theorem C9_no_focus_no_events_witness :
    (noia_wayland_gateway_key
        { keyboard_focused_sid := 3, pointer_focused_sid := 3,
          current_transfer := none }
        { surfaces := [(2, noia_wayland_surface_new)], regions := [],
          keyboard_resources := [{ client := 4, id := 20 }],
          pointer_resources := [{ client := 4, id := 21 }],
          data_device_resources := [{ client := 4, id := 22 }] }
        0 11 12 1 true { depressed := 1, latched := 0, locked := 0,
                         effective := 1 }).2 = []
  ∧ (noia_wayland_gateway_pointer_button
        { keyboard_focused_sid := 3, pointer_focused_sid := 3,
          current_transfer := none }
        { surfaces := [(2, noia_wayland_surface_new)], regions := [],
          keyboard_resources := [{ client := 4, id := 20 }],
          pointer_resources := [{ client := 4, id := 21 }],
          data_device_resources := [{ client := 4, id := 22 }] }
        0 11 272 1).2 = []
  ∧ noia_wayland_gateway_pointer_axis
        { keyboard_focused_sid := 3, pointer_focused_sid := 3,
          current_transfer := none }
        { surfaces := [(2, noia_wayland_surface_new)], regions := [],
          keyboard_resources := [{ client := 4, id := 20 }],
          pointer_resources := [{ client := 4, id := 21 }],
          data_device_resources := [{ client := 4, id := 22 }] }
        1 2 3 4 = []
  ∧ noia_wayland_gateway_pointer_motion
        { surfaces := [(2, noia_wayland_surface_new)], regions := [],
          keyboard_resources := [{ client := 4, id := 20 }],
          pointer_resources := [{ client := 4, id := 21 }],
          data_device_resources := [{ client := 4, id := 22 }] }
        3 { x := 1, y := 2 } 9 = []
  ∧ (noia_wayland_gateway_send_selection
        { keyboard_focused_sid := 3, pointer_focused_sid := 3,
          current_transfer := some { rc := { client := 5, id := 30 },
                                     mimetypes := ["text/plain"] } }
        { surfaces := [(2, noia_wayland_surface_new)], regions := [],
          keyboard_resources := [{ client := 4, id := 20 }],
          pointer_resources := [{ client := 4, id := 21 }],
          data_device_resources := [{ client := 4, id := 22 }] }
        0).2 = [] := by
  have base := C9_no_focus_no_events
    { surfaces := [(2, noia_wayland_surface_new)], regions := [],
      keyboard_resources := [{ client := 4, id := 20 }],
      pointer_resources := [{ client := 4, id := 21 }],
      data_device_resources := [{ client := 4, id := 22 }] }
    3 (Or.inr (Or.inl rfl))
  exact ⟨base.1 _ 0 11 12 1 true _ rfl,
         base.2.1 _ 0 11 272 1 rfl,
         base.2.2.1 _ 1 2 3 4 rfl,
         base.2.2.2.1 { x := 1, y := 2 } 9,
         base.2.2.2.2 _ 0 rfl⟩

/-- C10: a successful `create_region` returns a region id that is neither
the reserved invalid id nor the id of any region live in the cache at the
time of the call, and stores under it the zero-initialised — hence initially
invalid — region record. -/
theorem C10_create_region_fresh (cache : NoiaWaylandCache)
    (draws : List Nat) (rid : NoiaItemId) (cache2 : NoiaWaylandCache)
    (h : noia_wayland_cache_create_region cache draws = some (rid, cache2)) :
    rid ≠ scInvalidItemId
  ∧ noia_store_find cache.regions rid = none
  ∧ noia_store_find cache2.regions rid = some noia_wayland_region_new
  ∧ noia_wayland_region_is_valid noia_wayland_region_new = false := by
  unfold noia_wayland_cache_create_region at h
  cases hg : noia_store_generate_new_id cache.regions draws with
  | none =>
    rw [hg] at h
    exact absurd h (by simp)
  | some rid0 =>
    rw [hg] at h
    simp only [Option.some.injEq, Prod.mk.injEq] at h
    obtain ⟨hr, hc⟩ := h
    have hp := List.find?_some hg
    simp only [Bool.and_eq_true, bne_iff_ne, Option.isNone_iff_eq_none] at hp
    subst hr
    refine ⟨hp.1, hp.2, ?_, by decide⟩
    rw [← hc]
    simp [noia_store_find]

/-- C10 witness: on a cache holding region 5, with the random stream
[0, 5, 7], the draw 0 is rejected as invalid, the draw 5 as occupied, and
region id 7 is minted with the zero-initialised record stored under it. -/
theorem C10_create_region_fresh_witness :
    (7 : NoiaItemId) ≠ scInvalidItemId
  ∧ noia_store_find
      ([(5, noia_wayland_region_new)] : List (NoiaItemId × NoiaWaylandRegion))
      7 = none
  ∧ noia_store_find
      ((7, noia_wayland_region_new) :: [(5, noia_wayland_region_new)])
      7 = some noia_wayland_region_new
  ∧ noia_wayland_region_is_valid noia_wayland_region_new = false :=
  C10_create_region_fresh
    { surfaces := [], regions := [(5, noia_wayland_region_new)],
      keyboard_resources := [], pointer_resources := [],
      data_device_resources := [] }
    [0, 5, 7] 7
    { surfaces := [],
      regions := (7, noia_wayland_region_new) :: [(5, noia_wayland_region_new)],
      keyboard_resources := [], pointer_resources := [],
      data_device_resources := [] }
    rfl
